import Mathlib

/-!
Shallow embedding of the session-lifecycle and query-execution core of
`src/index.js` (an MCP server exposing MSSQL connection management, single
and batched query execution, and connection statistics).

The JavaScript module keeps its session in module-level mutable variables
(`connectionPool`, `lastActivityTime`, `connectionConfig`,
`autoDisconnectTimer`, `heartbeatTimer`, `connectionStats`).  Here that
state is the structure `ServerState`, and every function of the source that
mutates it becomes a Lean function `ServerState → ServerState × result`.

Interactions with the outside world (the `mssql` driver's `pool.connect()`,
`pool.close()`, `request.query(...)`, and `Date.now()`) are modelled by
oracle arguments: a `Bool` for whether `connect`/`close` succeeds, an
`Except String DriverResult` for the outcome of a driver query, and `Nat`
timestamps (milliseconds).  Thrown JavaScript errors are modelled with
`Except JsError`.
-/

deriving instance DecidableEq for Except

namespace McpMssql

/-- Configuration object received by `connectDatabase` (src/index.js line 125).
The optional fields mirror the optional keys of the `connect_database` zod
input schema (src/index.js lines 278-291); `none` models an absent key. -/
structure Config where
  server : String
  database : String
  user : String
  password : String
  port : Option Nat := none
  encrypt : Option Bool := none
  trustServerCertificate : Option Bool := none
  requestTimeout : Option Nat := none
  connectionTimeout : Option Nat := none
  maxPoolSize : Option Nat := none
  minPoolSize : Option Nat := none
  idleTimeout : Option Nat := none
deriving DecidableEq

/-- JavaScript `x || d` for a numeric option: an absent value and the falsy
number `0` both fall back to the default `d`. -/
def jsOrNat (x : Option Nat) (d : Nat) : Nat :=
  match x with
  | none => d
  | some 0 => d
  | some n => n

/-- JavaScript `x || false` for a boolean option. -/
def jsOrFalse (x : Option Bool) : Bool :=
  match x with
  | none => false
  | some b => b

/-- JavaScript `config.encrypt !== false` (src/index.js line 140): encryption
is on unless the caller explicitly passes `false`. -/
def encryptFlag (x : Option Bool) : Bool :=
  match x with
  | some false => false
  | _ => true

/-- The `options` block of the driver configuration built by
`connectDatabase` (src/index.js lines 139-145). -/
structure SqlConfigOptions where
  encrypt : Bool
  trustServerCertificate : Bool
  enableArithAbort : Bool
  requestTimeout : Nat
  connectionTimeout : Nat
deriving DecidableEq

/-- The `pool` block of the driver configuration built by `connectDatabase`
(src/index.js lines 146-152). -/
structure SqlPoolOptions where
  max : Nat
  min : Nat
  idleTimeoutMillis : Nat
  acquireTimeoutMillis : Nat
  createTimeoutMillis : Nat
deriving DecidableEq

/-- The full `sqlConfig` object passed to `new sql.ConnectionPool`
(src/index.js lines 133-153). -/
structure SqlConfig where
  server : String
  database : String
  user : String
  password : String
  port : Nat
  options : SqlConfigOptions
  pool : SqlPoolOptions
deriving DecidableEq

/-- `connectDatabase` building `sqlConfig` from its `config` argument with
the stated defaults (src/index.js lines 133-153).  In particular
`min: config.minPoolSize || 1` (line 148): a falsy `minPoolSize` (absent or
`0`) becomes `1`. -/
def buildSqlConfig (config : Config) : SqlConfig :=
  { server := config.server
    database := config.database
    user := config.user
    password := config.password
    port := jsOrNat config.port 1433
    options :=
      { encrypt := encryptFlag config.encrypt
        trustServerCertificate := jsOrFalse config.trustServerCertificate
        enableArithAbort := true
        requestTimeout := jsOrNat config.requestTimeout 30000
        connectionTimeout := jsOrNat config.connectionTimeout 30000 }
    pool :=
      { max := jsOrNat config.maxPoolSize 10
        min := jsOrNat config.minPoolSize 1
        idleTimeoutMillis := jsOrNat config.idleTimeout 600000
        acquireTimeoutMillis := 60000
        createTimeoutMillis := 30000 } }

/-- Defaults declared by the `connect_database` tool input schema
(src/index.js lines 283-290); `minPoolSize` defaults to `0` (line 289). -/
structure ConnectSchemaDefaults where
  port : Nat
  encrypt : Bool
  trustServerCertificate : Bool
  requestTimeout : Nat
  connectionTimeout : Nat
  maxPoolSize : Nat
  minPoolSize : Nat
  idleTimeout : Nat
deriving DecidableEq

/-- The concrete schema defaults of `connect_database` (src/index.js
lines 283-290). -/
def connectSchemaDefaults : ConnectSchemaDefaults :=
  { port := 1433
    encrypt := true
    trustServerCertificate := false
    requestTimeout := 30000
    connectionTimeout := 30000
    maxPoolSize := 10
    minPoolSize := 0
    idleTimeout := 600000 }

/-- The `mssql` driver pool object, as far as the source observes it:
`pool.connected` and `pool.connecting` (src/index.js line 205).  `id`
distinguishes distinct pool objects created by `new sql.ConnectionPool`. -/
structure Pool where
  id : Nat
  connected : Bool
  connecting : Bool
deriving DecidableEq

/-- The `connectionStats` record (src/index.js lines 51-62).  Timestamps are
`Option Nat` (milliseconds; `none` models the initial `null`), and the float
`averageQueryTime` is modelled as a rational. -/
structure ConnectionStats where
  totalConnections : Nat
  successfulConnections : Nat
  failedConnections : Nat
  totalQueries : Nat
  successfulQueries : Nat
  failedQueries : Nat
  lastConnectionTime : Option Nat
  lastQueryTime : Option Nat
  totalQueryTime : Nat
  averageQueryTime : ℚ
deriving DecidableEq

/-- Initial value of `connectionStats` (src/index.js lines 51-62). -/
def initialConnectionStats : ConnectionStats :=
  { totalConnections := 0
    successfulConnections := 0
    failedConnections := 0
    totalQueries := 0
    successfulQueries := 0
    failedQueries := 0
    lastConnectionTime := none
    lastQueryTime := none
    totalQueryTime := 0
    averageQueryTime := 0 }

/-- The module-level mutable state of src/index.js (lines 45-65): the pool
handle, the last-activity timestamp, the retained connection configuration,
whether the auto-disconnect and heartbeat timers are armed, and the stats. -/
structure ServerState where
  connectionPool : Option Pool
  lastActivityTime : Option Nat
  connectionConfig : Option Config
  autoDisconnectTimer : Bool
  heartbeatTimer : Bool
  connectionStats : ConnectionStats
deriving DecidableEq

/-- State at process start (src/index.js lines 45-65): everything null, all
counters zero, no timers armed. -/
def initialServerState : ServerState :=
  { connectionPool := none
    lastActivityTime := none
    connectionConfig := none
    autoDisconnectTimer := false
    heartbeatTimer := false
    connectionStats := initialConnectionStats }

/-- Errors thrown by the embedded functions.  `notConnected` is the
`throw new Error("未连接到数据库...")` of `executeQuery` (line 227) and of the
batch tool (line 444); `closeFailed`/`connectFailed`/`queryFailed` stand for
driver errors propagated from `pool.close()`, `pool.connect()` and
`request.query(...)`; `referenceError` models the JavaScript ReferenceError
raised when an undeclared identifier is read (strict-mode ES module). -/
inductive JsError where
  | notConnected : JsError
  | closeFailed : String → JsError
  | connectFailed : String → JsError
  | queryFailed : String → JsError
  | referenceError : String → JsError
deriving DecidableEq

/-- `error.message` of a modelled error, as interpolated into result texts. -/
def JsError.message : JsError → String
  | JsError.notConnected => "not connected to the database"
  | JsError.closeFailed m => m
  | JsError.connectFailed m => m
  | JsError.queryFailed m => m
  | JsError.referenceError n => n ++ " is not defined"

/-- `isConnectionActive()` (src/index.js lines 204-206):
`connectionPool && connectionPool.connected && !connectionPool.connecting`. -/
def isConnectionActive (st : ServerState) : Bool :=
  match st.connectionPool with
  | some p => p.connected && !p.connecting
  | none => false

/-- `updateActivityTime()` (src/index.js lines 119-122): stores `Date.now()`
in `lastActivityTime` and (re)arms the auto-disconnect timer via
`startAutoDisconnectTimer()`. -/
def updateActivityTime (now : Nat) (st : ServerState) : ServerState :=
  { st with lastActivityTime := some now, autoDisconnectTimer := true }

/-- `startHeartbeat()` (src/index.js lines 68-86): (re)arms the heartbeat
interval timer. -/
def startHeartbeat (st : ServerState) : ServerState :=
  { st with heartbeatTimer := true }

/-- `stopHeartbeat()` (src/index.js lines 89-94). -/
def stopHeartbeat (st : ServerState) : ServerState :=
  { st with heartbeatTimer := false }

/-- `disconnectDatabase()` (src/index.js lines 178-201).  With a pool handle
present it awaits `pool.close()` (outcome given by the `closeOk` oracle);
on success it nulls the pool handle, the retained `connectionConfig` and
`lastActivityTime`, clears the auto-disconnect timer, stops the heartbeat,
and returns `true`.  If `close` throws, the error is re-raised and nothing
is reset.  With no pool handle it returns `false`. -/
def disconnectDatabase (closeOk : Bool) (st : ServerState) :
    ServerState × Except JsError Bool :=
  match st.connectionPool with
  | some _ =>
    if closeOk then
      ({ st with
          connectionPool := none
          connectionConfig := none
          lastActivityTime := none
          autoDisconnectTimer := false
          heartbeatTimer := false },
       Except.ok true)
    else (st, Except.error (JsError.closeFailed "connection close failed"))
  | none => (st, Except.ok false)

/-- The part of `connectDatabase` after the optional initial disconnect
(src/index.js lines 132-174): build `sqlConfig`, assign
`connectionPool = new sql.ConnectionPool(sqlConfig)` and await
`connectionPool.connect()` (outcome given by `connectOk`; `newPoolId`
identifies the freshly created pool object).  On success: retain the config,
bump total/successful connection counters, set `lastConnectionTime`,
`updateActivityTime()`, `startHeartbeat()`, return `true`.  On failure the
catch block bumps total/failed connection counters and re-raises; note the
assignment to `connectionPool` has already happened, so the failed,
unconnected pool object remains as the pool handle. -/
def connectDatabaseOpen (connectOk : Bool) (newPoolId now : Nat)
    (config : Config) (st : ServerState) : ServerState × Except JsError Bool :=
  let _sqlConfig := buildSqlConfig config
  if connectOk then
    let s := st.connectionStats
    let st1 := { st with
      connectionPool := some { id := newPoolId, connected := true, connecting := false }
      connectionConfig := some config
      connectionStats := { s with
        totalConnections := s.totalConnections + 1
        successfulConnections := s.successfulConnections + 1
        lastConnectionTime := some now } }
    (startHeartbeat (updateActivityTime now st1), Except.ok true)
  else
    let s := st.connectionStats
    ({ st with
        connectionPool := some { id := newPoolId, connected := false, connecting := false }
        connectionStats := { s with
          totalConnections := s.totalConnections + 1
          failedConnections := s.failedConnections + 1 } },
     Except.error (JsError.connectFailed "pool connect failed"))

/-- `connectDatabase(config)` (src/index.js lines 125-175).  If a pool handle
exists it first awaits `disconnectDatabase()`; an error thrown there is
handled by the same catch block (total/failed counters bumped, error
re-raised).  Otherwise it proceeds to open the new pool
(`connectDatabaseOpen`). -/
def connectDatabase (closeOk connectOk : Bool) (newPoolId now : Nat)
    (config : Config) (st : ServerState) : ServerState × Except JsError Bool :=
  match st.connectionPool with
  | some _ =>
    match disconnectDatabase closeOk st with
    | (st1, Except.ok _) => connectDatabaseOpen connectOk newPoolId now config st1
    | (st1, Except.error e) =>
      let s := st1.connectionStats
      ({ st1 with connectionStats := { s with
            totalConnections := s.totalConnections + 1
            failedConnections := s.failedConnections + 1 } },
       Except.error e)
  | none => connectDatabaseOpen connectOk newPoolId now config st

/-- `reconnectIfNeeded()` (src/index.js lines 209-221): when the connection
is not active and a retained config exists, try `connectDatabase` with it —
`true` on success, `false` if it threw.  Otherwise return
`isConnectionActive()`. -/
def reconnectIfNeeded (closeOk connectOk : Bool) (newPoolId now : Nat)
    (st : ServerState) : ServerState × Bool :=
  match st.connectionConfig, isConnectionActive st with
  | some cfg, false =>
    match connectDatabase closeOk connectOk newPoolId now cfg st with
    | (st1, Except.ok _) => (st1, true)
    | (st1, Except.error _) => (st1, false)
  | _, _ => (st, isConnectionActive st)

/-- A result row: ordered field-name/value pairs. -/
abbrev Row := List (String × String)

/-- One entry of the `params` array of `execute_sql` / `executeQuery`
(src/index.js lines 237-243); only bound onto the request, never touching
session state. -/
structure SqlParam where
  name : Option String
  type : Option String
  value : Option String
deriving DecidableEq

/-- What the driver hands back from `request.query(sqlText)`:
`result.rowsAffected` and `result.recordset` (possibly absent). -/
structure DriverResult where
  rowsAffected : List Nat
  recordset : Option (List Row)
deriving DecidableEq

/-- The object returned by `executeQuery` on success (src/index.js
lines 257-263). -/
structure QueryResult where
  success : Bool
  rowsAffected : List Nat
  recordset : List Row
  queryTime : Nat
  rowCount : Nat
deriving DecidableEq

/-- Oracle bundle for one `executeQuery` call: outcomes of the driver calls
a reconnect would make (`closeOk`, `connectOk`, the fresh pool id and the
completion time of the reconnect) and the wall-clock instants surrounding
the statement (`startTime` at line 230, `queryEnd` for the `Date.now()` of
lines 248/265). -/
structure ExecEnv where
  closeOk : Bool
  connectOk : Bool
  newPoolId : Nat
  connectNow : Nat
  startTime : Nat
  queryEnd : Nat
deriving DecidableEq

/-- `executeQuery(sqlText, params)` (src/index.js lines 224-272).  First
`reconnectIfNeeded()`; when it reports `false` the not-connected error is
thrown with the state otherwise untouched.  Then the statement runs
(outcome given by the `queryOutcome` oracle).  Success: bump
total/successful query counters, set `lastQueryTime`, accumulate
`totalQueryTime`, recompute `averageQueryTime`, `updateActivityTime()`, and
return the `QueryResult`.  Failure: bump total/failed query counters only
and re-raise — `lastActivityTime` is not touched. -/
def executeQuery (env : ExecEnv) (queryOutcome : Except String DriverResult)
    (sqlText : String) (params : List SqlParam) (st : ServerState) :
    ServerState × Except JsError QueryResult :=
  let _ := sqlText
  let _ := params
  match reconnectIfNeeded env.closeOk env.connectOk env.newPoolId env.connectNow st with
  | (st1, false) => (st1, Except.error JsError.notConnected)
  | (st1, true) =>
    match queryOutcome with
    | Except.ok result =>
      let queryTime := env.queryEnd - env.startTime
      let s := st1.connectionStats
      let totalQ := s.totalQueries + 1
      let totalQT := s.totalQueryTime + queryTime
      let st2 := { st1 with connectionStats := { s with
          totalQueries := totalQ
          successfulQueries := s.successfulQueries + 1
          lastQueryTime := some env.queryEnd
          totalQueryTime := totalQT
          averageQueryTime := (totalQT : ℚ) / (totalQ : ℚ) } }
      (updateActivityTime env.queryEnd st2,
       Except.ok
         { success := true
           rowsAffected := result.rowsAffected
           recordset := result.recordset.getD []
           queryTime := queryTime
           rowCount := (result.recordset.getD []).length })
    | Except.error msg =>
      let s := st1.connectionStats
      ({ st1 with connectionStats := { s with
          totalQueries := s.totalQueries + 1
          failedQueries := s.failedQueries + 1 } },
       Except.error (JsError.queryFailed msg))

/-- Idle threshold of the auto-disconnect watchdog (src/index.js line 107). -/
def autoDisconnectIdleThresholdMs : Nat := 300000

/-- Firing of the `startAutoDisconnectTimer` callback (src/index.js
lines 97-116).  The `setTimeout` handle is spent, so the timer is disarmed;
with a pool handle and a last-activity time present, the watchdog either
awaits `disconnectDatabase()` (when at least 300000 ms passed since the
last activity) or re-arms itself via `startAutoDisconnectTimer()`. -/
def autoDisconnectTimerFire (closeOk : Bool) (now : Nat) (st : ServerState) :
    ServerState :=
  let st0 := { st with autoDisconnectTimer := false }
  match st.connectionPool, st.lastActivityTime with
  | some _, some last =>
    if autoDisconnectIdleThresholdMs ≤ now - last then
      (disconnectDatabase closeOk st0).1
    else { st0 with autoDisconnectTimer := true }
  | _, _ => st0

/-- Firing of the heartbeat interval callback (src/index.js lines 73-85):
only when the connection is active it runs `SELECT 1 as heartbeat`; on
success it calls `updateActivityTime()`, on failure it swallows the error
and leaves the state alone.  Statistics are never touched. -/
def heartbeatTimerFire (outcome : Except String Unit) (now : Nat)
    (st : ServerState) : ServerState :=
  if isConnectionActive st then
    match outcome with
    | Except.ok _ => updateActivityTime now st
    | Except.error _ => st
  else st

/-- What the `get_connection_status` tool reads (src/index.js lines 594-616):
the `connected` flag of the pool handle, the time since last activity, the
clamped auto-disconnect countdown in seconds, and the stats snapshot.  The
handler performs no state mutation. -/
structure StatusReport where
  connected : Bool
  timeSinceLastActivity : Option Nat
  autoDisconnectRemainingSeconds : Option Nat
  stats : ConnectionStats
deriving DecidableEq

/-- The pure read performed by `get_connection_status` (src/index.js
lines 594-616).  `Math.max(0, 300 - Math.floor(t/1000))` is the truncated
subtraction `300 - t / 1000` on `Nat`. -/
def getConnectionStatus (now : Nat) (st : ServerState) : StatusReport :=
  let isConnected :=
    match st.connectionPool with
    | some p => p.connected
    | none => false
  let tsla := st.lastActivityTime.map (fun last => now - last)
  { connected := isConnected
    timeSinceLastActivity := tsla
    autoDisconnectRemainingSeconds := tsla.map (fun t => 300 - t / 1000)
    stats := st.connectionStats }

/-- One element of the `sqlList` input of `batch_execute_sql` (src/index.js
lines 428-436): an optional id, the SQL text, and optional parameters.
`id := some ""` models an explicitly empty (hence falsy) id string. -/
structure BatchItem where
  id : Option String
  sql : String
  params : List SqlParam
deriving DecidableEq

/-- One entry of the `results` array built by `batch_execute_sql`
(src/index.js lines 456-472 and 485-501). -/
structure BatchItemResult where
  index : Nat
  id : String
  sql : String
  success : Bool
  result : Option QueryResult
  error : Option String
deriving DecidableEq

/-- The id expression of the PARALLEL branch,
`sqlItem.id || ` + backtick-template `SQL_${index + 1}` (src/index.js
lines 458 and 467), where `index` is the 0-based `map` callback index:
a falsy id (absent or empty) falls back to the positional label. -/
def parallelItemId (index : Nat) (item : BatchItem) : String :=
  match item.id with
  | some s => if s = "" then "SQL_" ++ toString (index + 1) else s
  | none => "SQL_" ++ toString (index + 1)

/-- The id expression of the SERIAL branch (src/index.js lines 487 and 496):
`sqlItem.id || ` the template referencing `index` — but the serial loop's
variable is `i`; no `index` is in scope there, so in this strict-mode ES
module evaluating the fallback throws `ReferenceError: index is not
defined`.  A truthy `sqlItem.id` short-circuits `||` and never evaluates
the fallback. -/
def serialItemId (item : BatchItem) : Except JsError String :=
  match item.id with
  | some s =>
    if s = "" then Except.error (JsError.referenceError "index") else Except.ok s
  | none => Except.error (JsError.referenceError "index")

/-- The serial loop of `batch_execute_sql` (src/index.js lines 478-508),
running the items in input order with their per-item driver outcomes and
the 1-based position `i + 1`.  For each item `executeQuery` runs first;
then the pushed result object is evaluated, whose `id` field is
`serialItemId`.  When that raises the ReferenceError it does so both in the
`try` push and, caught once, again in the `catch` push, so it escapes the
loop and aborts the whole batch.  Otherwise a success entry is recorded, or
a failure entry is recorded and — with `stopOnError` — the loop breaks. -/
def batchSerialAux (env : ExecEnv) (stopOnError : Bool) :
    List (BatchItem × Except String DriverResult) → Nat → ServerState →
    ServerState × Except JsError (List BatchItemResult)
  | [], _, st => (st, Except.ok [])
  | (item, oc) :: rest, i, st =>
    match executeQuery env oc item.sql item.params st with
    | (st1, Except.ok qres) =>
      match serialItemId item with
      | Except.error e => (st1, Except.error e)
      | Except.ok idStr =>
        let entry : BatchItemResult :=
          { index := i + 1, id := idStr, sql := item.sql, success := true
            result := some qres, error := none }
        match batchSerialAux env stopOnError rest (i + 1) st1 with
        | (st2, Except.ok rs) => (st2, Except.ok (entry :: rs))
        | (st2, Except.error e) => (st2, Except.error e)
    | (st1, Except.error e) =>
      match serialItemId item with
      | Except.error e2 => (st1, Except.error e2)
      | Except.ok idStr =>
        let entry : BatchItemResult :=
          { index := i + 1, id := idStr, sql := item.sql, success := false
            result := none, error := some e.message }
        if stopOnError then (st1, Except.ok [entry])
        else
          match batchSerialAux env stopOnError rest (i + 1) st1 with
          | (st2, Except.ok rs) => (st2, Except.ok (entry :: rs))
          | (st2, Except.error e3) => (st2, Except.error e3)

/-- The parallel branch of `batch_execute_sql` (src/index.js lines 451-477):
every item is dispatched and each item's own try/catch turns its outcome
into an entry, so no item aborts the batch; `Promise.all` preserves input
order.  The single-threaded event loop interleaves the item bodies; this
embedding fixes the in-order completion schedule, which determines the same
per-item entries (each entry depends only on its own driver outcome and on
the session staying reachable). -/
def batchParallelAux (env : ExecEnv) :
    List (BatchItem × Except String DriverResult) → Nat → ServerState →
    ServerState × List BatchItemResult
  | [], _, st => (st, [])
  | (item, oc) :: rest, i, st =>
    let out := executeQuery env oc item.sql item.params st
    let entry : BatchItemResult :=
      match out.2 with
      | Except.ok qres =>
        { index := i + 1, id := parallelItemId i item, sql := item.sql
          success := true, result := some qres, error := none }
      | Except.error e =>
        { index := i + 1, id := parallelItemId i item, sql := item.sql
          success := false, result := none, error := some e.message }
    let (st2, rs) := batchParallelAux env rest (i + 1) out.1
    (st2, entry :: rs)

/-- The `batch_execute_sql` handler body (src/index.js lines 440-587):
`reconnectIfNeeded()` once up front (its `false` becomes the thrown
not-connected error, caught by the outer catch as a hard batch failure),
then the parallel or serial branch.  `Except.error` is the outer-catch
"批量SQL执行失败" path: no per-item results are returned. -/
def batchExecuteSql (env : ExecEnv)
    (outcomes : List (Except String DriverResult)) (items : List BatchItem)
    (stopOnError parallelMode : Bool) (st : ServerState) :
    ServerState × Except JsError (List BatchItemResult) :=
  match reconnectIfNeeded env.closeOk env.connectOk env.newPoolId env.connectNow st with
  | (st1, false) => (st1, Except.error JsError.notConnected)
  | (st1, true) =>
    if parallelMode then
      let (st2, rs) := batchParallelAux env (items.zip outcomes) 0 st1
      (st2, Except.ok rs)
    else batchSerialAux env stopOnError (items.zip outcomes) 0 st1

/-- Projection of a batch outcome to the per-item ids. -/
def batchResultIds (r : Except JsError (List BatchItemResult)) :
    Except JsError (List String) :=
  r.map (fun rs => rs.map (fun e => e.id))

/-- Projection of a batch outcome to the per-item success flags. -/
def batchResultSuccesses (r : Except JsError (List BatchItemResult)) :
    Except JsError (List Bool) :=
  r.map (fun rs => rs.map (fun e => e.success))

/-!
## Event-loop interleaving model of the reconnect race

`reconnectIfNeeded` (src/index.js lines 209-221) holds no lock.  When two
concurrent `executeQuery` callers reach it on a disconnected session with a
retained config, the single-threaded event loop interleaves their atomic
segments, the segment boundaries being the `await`s of
`disconnectDatabase()` / `connectionPool.connect()` inside
`connectDatabase`.  Each caller is a small program counter:

* `start`      — about to evaluate `!isConnectionActive() && connectionConfig`;
  when reconnect is needed and a (stale) pool handle exists, it calls
  `connectionPool.close()` and suspends (`closing`); with no pool handle it
  synchronously assigns `connectionPool = new sql.ConnectionPool(...)`,
  calls `.connect()` and suspends (`awaitingConnect pid`).
* `closing`    — `close()` resolved: the shared pool handle, retained config
  and activity time are nulled (lines 182-184), then the caller continues
  synchronously into the pool assignment and suspends in `connect()`.
* `awaitingConnect pid` — `connect()` on pool object `pid` resolved
  (success oracle fixed to true): the object becomes connected (only
  visible if the shared handle still points at it), the config is retained
  again, total/successful connection counters are bumped, activity time set,
  and `reconnectIfNeeded` returns `true`.
* `done b`     — returned with value `b`.

`poolsOpened` counts executions of `new sql.ConnectionPool` + `.connect()`
(a pool open); `nextPoolId` supplies fresh pool identities.
-/

/-- Shared module-level state visible to both racing callers; the retained
configuration is abstracted to an identifier. -/
structure RaceShared where
  connectionPool : Option Pool
  connectionConfig : Option Nat
  lastActivityTime : Option Nat
  totalConnections : Nat
  successfulConnections : Nat
  poolsOpened : Nat
  nextPoolId : Nat
deriving DecidableEq

/-- Program counter of one caller running the reconnect path. -/
inductive CallerPC where
  | start : CallerPC
  | closing : CallerPC
  | awaitingConnect : Nat → CallerPC
  | done : Bool → CallerPC
deriving DecidableEq

/-- Whether a caller has returned from `reconnectIfNeeded`. -/
def CallerPC.isDone : CallerPC → Bool
  | CallerPC.done _ => true
  | _ => false

/-- Two racing callers over the shared state. -/
structure RaceState where
  shared : RaceShared
  pcA : CallerPC
  pcB : CallerPC
deriving DecidableEq

/-- `isConnectionActive()` over the shared race state. -/
def raceIsActive (sh : RaceShared) : Bool :=
  match sh.connectionPool with
  | some p => p.connected && !p.connecting
  | none => false

/-- The synchronous run from `new sql.ConnectionPool(sqlConfig)` through the
call of `.connect()` (src/index.js lines 156-157): the fresh, still
connecting pool object becomes the shared handle and the caller suspends
awaiting its connection. -/
def raceBeginPoolOpen (sh : RaceShared) : RaceShared × CallerPC :=
  let pid := sh.nextPoolId
  ({ sh with
      connectionPool := some { id := pid, connected := false, connecting := true }
      poolsOpened := sh.poolsOpened + 1
      nextPoolId := pid + 1 },
   CallerPC.awaitingConnect pid)

/-- One atomic segment of one caller (see the section comment for the
correspondence with src/index.js lines 125-221). -/
def raceSegment (sh : RaceShared) : CallerPC → RaceShared × CallerPC
  | CallerPC.start =>
    if !raceIsActive sh && sh.connectionConfig.isSome then
      match sh.connectionPool with
      | some _ => (sh, CallerPC.closing)
      | none => raceBeginPoolOpen sh
    else (sh, CallerPC.done (raceIsActive sh))
  | CallerPC.closing =>
    let sh1 := { sh with
      connectionPool := none
      connectionConfig := none
      lastActivityTime := none }
    raceBeginPoolOpen sh1
  | CallerPC.awaitingConnect pid =>
    let sh1 :=
      match sh.connectionPool with
      | some p =>
        if p.id = pid then
          { sh with connectionPool := some { id := pid, connected := true, connecting := false } }
        else sh
      | none => sh
    ({ sh1 with
        connectionConfig := some 0
        totalConnections := sh1.totalConnections + 1
        successfulConnections := sh1.successfulConnections + 1
        lastActivityTime := some 0 },
     CallerPC.done true)
  | CallerPC.done b => (sh, CallerPC.done b)

/-- Run one segment of caller A (`false`) or caller B (`true`). -/
def raceStep (who : Bool) (st : RaceState) : RaceState :=
  if who then
    let (sh, pc) := raceSegment st.shared st.pcB
    { st with shared := sh, pcB := pc }
  else
    let (sh, pc) := raceSegment st.shared st.pcA
    { st with shared := sh, pcA := pc }

/-- Run a schedule (a list of caller choices) from a state. -/
def raceRun (sched : List Bool) (st : RaceState) : RaceState :=
  sched.foldl (fun s w => raceStep w s) st

/-- Both callers have returned from the reconnect path. -/
def raceBothDone (st : RaceState) : Bool :=
  st.pcA.isDone && st.pcB.isDone

/-- The claimed race scenario: the session is disconnected (no pool handle),
a retained configuration exists, counters start at zero, and two queries
arrive concurrently, both entering `reconnectIfNeeded`. -/
def raceInit : RaceState :=
  { shared :=
      { connectionPool := none
        connectionConfig := some 0
        lastActivityTime := some 0
        totalConnections := 0
        successfulConnections := 0
        poolsOpened := 0
        nextPoolId := 1 }
    pcA := CallerPC.start
    pcB := CallerPC.start }

/-- A double-open schedule: A starts opening pool 1; B then observes the
connecting (inactive) pool, closes it, and opens pool 2; both connects then
resolve. -/
def raceDoubleOpenSched : List Bool := [false, true, true, false, true]

/-!
## Concrete example values used by witnesses and counterexamples
-/

/-- A concrete connection configuration (all optional keys absent). -/
def cfgEx : Config :=
  { server := "db.example.com", database := "mydb", user := "sa"
    password := "pw" }

/-- A concrete configuration carrying the schema-default `minPoolSize = 0`. -/
def cfgExMinZero : Config :=
  { cfgEx with minPoolSize := some 0 }

/-- A concrete driver result: one row affected, no recordset. -/
def drEx : DriverResult := { rowsAffected := [1], recordset := none }

/-- A concrete oracle bundle: reconnect succeeds, the query spans 0..5 ms. -/
def envEx : ExecEnv :=
  { closeOk := true, connectOk := true, newPoolId := 2, connectNow := 0
    startTime := 0, queryEnd := 5 }

/-- The state after one successful `connectDatabase cfgEx` at time 0 on the
initial state. -/
def stConnectedEx : ServerState :=
  (connectDatabase true true 1 0 cfgEx initialServerState).1

/-- A 3-item batch with caller-supplied (truthy) ids. -/
def items3id : List BatchItem :=
  [{ id := some "A", sql := "Q1", params := [] },
   { id := some "B", sql := "Q2", params := [] },
   { id := some "C", sql := "Q3", params := [] }]

/-- A 3-item batch with no caller-supplied ids. -/
def items3noid : List BatchItem :=
  [{ id := none, sql := "Q1", params := [] },
   { id := none, sql := "Q2", params := [] },
   { id := none, sql := "Q3", params := [] }]

/-!
## Statistics invariants
-/

/-- The spec's stat identities: successful + failed queries = total queries
and total connections = successful + failed connections. -/
def statsInvariant (s : ConnectionStats) : Prop :=
  s.successfulQueries + s.failedQueries = s.totalQueries ∧
  s.totalConnections = s.successfulConnections + s.failedConnections

/-- Component-wise monotonicity of the counters (no counter ever decreases
or resets). -/
def statsLE (s t : ConnectionStats) : Prop :=
  s.totalConnections ≤ t.totalConnections ∧
  s.successfulConnections ≤ t.successfulConnections ∧
  s.failedConnections ≤ t.failedConnections ∧
  s.totalQueries ≤ t.totalQueries ∧
  s.successfulQueries ≤ t.successfulQueries ∧
  s.failedQueries ≤ t.failedQueries ∧
  s.totalQueryTime ≤ t.totalQueryTime

instance (s : ConnectionStats) : Decidable (statsInvariant s) := by
  unfold statsInvariant; infer_instance

instance (s t : ConnectionStats) : Decidable (statsLE s t) := by
  unfold statsLE; infer_instance

/-!
## Helper lemmas
-/

theorem statsLE_refl (s : ConnectionStats) : statsLE s s := by
  unfold statsLE; omega

theorem statsLE_trans {s t u : ConnectionStats} (h1 : statsLE s t)
    (h2 : statsLE t u) : statsLE s u := by
  unfold statsLE at h1 h2 ⊢; omega

/-- `disconnectDatabase` never touches the statistics. -/
theorem disconnectDatabase_stats (c : Bool) (st : ServerState) :
    (disconnectDatabase c st).1.connectionStats = st.connectionStats := by
  unfold disconnectDatabase
  rcases st.connectionPool with _ | p
  · rfl
  · dsimp only
    split <;> rfl

/-- The auto-disconnect watchdog never touches the statistics. -/
theorem autoDisconnectTimerFire_stats (c : Bool) (now : Nat) (st : ServerState) :
    (autoDisconnectTimerFire c now st).connectionStats = st.connectionStats := by
  unfold autoDisconnectTimerFire
  rcases st.connectionPool with _ | p <;> rcases st.lastActivityTime with _ | la
  · rfl
  · rfl
  · rfl
  · dsimp only
    split
    · rw [disconnectDatabase_stats]
    · rfl

/-- The heartbeat prober never touches the statistics. -/
theorem heartbeatTimerFire_stats (oc : Except String Unit) (now : Nat)
    (st : ServerState) : (heartbeatTimerFire oc now st).connectionStats = st.connectionStats := by
  unfold heartbeatTimerFire
  split
  · cases oc <;> rfl
  · rfl

/-- `connectDatabase` preserves the stat identities and never decreases a
counter. -/
theorem connectDatabase_statsStep (c k : Bool) (pid now : Nat) (cfg : Config)
    (st : ServerState) (h : statsInvariant st.connectionStats) :
    statsInvariant (connectDatabase c k pid now cfg st).1.connectionStats ∧
    statsLE st.connectionStats (connectDatabase c k pid now cfg st).1.connectionStats := by
  obtain ⟨pool, la, cc, adt, hbt, stats⟩ := st
  simp only [statsInvariant, statsLE] at h ⊢
  cases pool <;> cases c <;> cases k <;>
    simp [connectDatabase, disconnectDatabase, connectDatabaseOpen, startHeartbeat,
      updateActivityTime] <;> omega

/-- `reconnectIfNeeded` preserves the stat identities and never decreases a
counter. -/
theorem reconnectIfNeeded_statsStep (c k : Bool) (pid now : Nat)
    (st : ServerState) (h : statsInvariant st.connectionStats) :
    statsInvariant (reconnectIfNeeded c k pid now st).1.connectionStats ∧
    statsLE st.connectionStats (reconnectIfNeeded c k pid now st).1.connectionStats := by
  unfold reconnectIfNeeded
  cases hcc : st.connectionConfig with
  | none => cases hact : isConnectionActive st <;> exact ⟨h, statsLE_refl _⟩
  | some cfg =>
    cases hact : isConnectionActive st with
    | true => exact ⟨h, statsLE_refl _⟩
    | false =>
      dsimp only
      cases hconn : connectDatabase c k pid now cfg st with
      | mk st1 r =>
        have h2 := connectDatabase_statsStep c k pid now cfg st h
        rw [hconn] at h2
        cases r <;> simpa using h2

/-- `executeQuery` preserves the stat identities and never decreases a
counter. -/
theorem executeQuery_statsStep (env : ExecEnv) (oc : Except String DriverResult)
    (sql : String) (ps : List SqlParam) (st : ServerState)
    (h : statsInvariant st.connectionStats) :
    statsInvariant (executeQuery env oc sql ps st).1.connectionStats ∧
    statsLE st.connectionStats (executeQuery env oc sql ps st).1.connectionStats := by
  unfold executeQuery
  dsimp only
  cases hrec : reconnectIfNeeded env.closeOk env.connectOk env.newPoolId env.connectNow st with
  | mk st1 b =>
    have h2 := reconnectIfNeeded_statsStep env.closeOk env.connectOk env.newPoolId
      env.connectNow st h
    rw [hrec] at h2
    obtain ⟨h2i, h2l⟩ := h2
    cases b with
    | false => exact ⟨h2i, h2l⟩
    | true =>
      cases oc with
      | ok r =>
        refine ⟨?_, statsLE_trans h2l ?_⟩ <;>
          simp only [statsInvariant, statsLE, updateActivityTime] at h2i ⊢ <;> omega
      | error m =>
        refine ⟨?_, statsLE_trans h2l ?_⟩ <;>
          simp only [statsInvariant, statsLE] at h2i ⊢ <;> omega

/-- When the connection is active, `reconnectIfNeeded` does nothing and
reports `true`. -/
theorem reconnectIfNeeded_active (c k : Bool) (pid now : Nat) (st : ServerState)
    (h : isConnectionActive st = true) :
    reconnectIfNeeded c k pid now st = (st, true) := by
  unfold reconnectIfNeeded
  rw [h]
  rcases hcc : st.connectionConfig with _ | cfg <;> rfl

theorem isConnectionActive_updateActivityTime (now : Nat) (st : ServerState) :
    isConnectionActive (updateActivityTime now st) = isConnectionActive st := rfl

/-- Success path of `executeQuery` on an active connection, fully
characterized. -/
theorem executeQuery_active_ok (env : ExecEnv) (r : DriverResult) (sql : String)
    (ps : List SqlParam) (st : ServerState) (h : isConnectionActive st = true) :
    executeQuery env (Except.ok r) sql ps st =
      (updateActivityTime env.queryEnd
        { st with connectionStats := { st.connectionStats with
            totalQueries := st.connectionStats.totalQueries + 1
            successfulQueries := st.connectionStats.successfulQueries + 1
            lastQueryTime := some env.queryEnd
            totalQueryTime := st.connectionStats.totalQueryTime + (env.queryEnd - env.startTime)
            averageQueryTime :=
              ((st.connectionStats.totalQueryTime + (env.queryEnd - env.startTime) : ℕ) : ℚ) /
                ((st.connectionStats.totalQueries + 1 : ℕ) : ℚ) } },
       Except.ok
         { success := true
           rowsAffected := r.rowsAffected
           recordset := r.recordset.getD []
           queryTime := env.queryEnd - env.startTime
           rowCount := (r.recordset.getD []).length }) := by
  unfold executeQuery
  rw [reconnectIfNeeded_active env.closeOk env.connectOk env.newPoolId env.connectNow st h]

/-- Failure path of `executeQuery` on an active connection, fully
characterized: only the total/failed query counters move. -/
theorem executeQuery_active_err (env : ExecEnv) (m : String) (sql : String)
    (ps : List SqlParam) (st : ServerState) (h : isConnectionActive st = true) :
    executeQuery env (Except.error m) sql ps st =
      ({ st with connectionStats := { st.connectionStats with
          totalQueries := st.connectionStats.totalQueries + 1
          failedQueries := st.connectionStats.failedQueries + 1 } },
       Except.error (JsError.queryFailed m)) := by
  unfold executeQuery
  rw [reconnectIfNeeded_active env.closeOk env.connectOk env.newPoolId env.connectNow st h]

/-- The serial batch loop preserves the stat identities and never decreases
a counter. -/
theorem batchSerialAux_statsStep (env : ExecEnv) (so : Bool) :
    ∀ (l : List (BatchItem × Except String DriverResult)) (i : Nat)
      (st : ServerState), statsInvariant st.connectionStats →
      statsInvariant (batchSerialAux env so l i st).1.connectionStats ∧
      statsLE st.connectionStats (batchSerialAux env so l i st).1.connectionStats := by
  intro l
  induction l with
  | nil => intro i st h; exact ⟨h, statsLE_refl _⟩
  | cons hd tl ih =>
    intro i st h
    obtain ⟨item, oc⟩ := hd
    unfold batchSerialAux
    dsimp only
    cases hq : executeQuery env oc item.sql item.params st with
    | mk st1 r =>
      have hstep := executeQuery_statsStep env oc item.sql item.params st h
      rw [hq] at hstep
      obtain ⟨h1i, h1l⟩ := hstep
      cases r with
      | ok qres =>
        cases hid : serialItemId item with
        | error e => exact ⟨h1i, h1l⟩
        | ok idStr =>
          dsimp only
          cases hrec2 : batchSerialAux env so tl (i + 1) st1 with
          | mk st2 rr =>
            have h2 := ih (i + 1) st1 h1i
            rw [hrec2] at h2
            cases rr <;> exact ⟨h2.1, statsLE_trans h1l h2.2⟩
      | error e =>
        cases hid : serialItemId item with
        | error e2 => exact ⟨h1i, h1l⟩
        | ok idStr =>
          dsimp only
          cases so with
          | true => exact ⟨h1i, h1l⟩
          | false =>
            cases hrec2 : batchSerialAux env false tl (i + 1) st1 with
            | mk st2 rr =>
              have h2 := ih (i + 1) st1 h1i
              rw [hrec2] at h2
              cases rr <;> exact ⟨h2.1, statsLE_trans h1l h2.2⟩

/-- The parallel batch dispatch preserves the stat identities and never
decreases a counter. -/
theorem batchParallelAux_statsStep (env : ExecEnv) :
    ∀ (l : List (BatchItem × Except String DriverResult)) (i : Nat)
      (st : ServerState), statsInvariant st.connectionStats →
      statsInvariant (batchParallelAux env l i st).1.connectionStats ∧
      statsLE st.connectionStats (batchParallelAux env l i st).1.connectionStats := by
  intro l
  induction l with
  | nil => intro i st h; exact ⟨h, statsLE_refl _⟩
  | cons hd tl ih =>
    intro i st h
    obtain ⟨item, oc⟩ := hd
    unfold batchParallelAux
    dsimp only
    cases hq : executeQuery env oc item.sql item.params st with
    | mk st1 r =>
      have hstep := executeQuery_statsStep env oc item.sql item.params st h
      rw [hq] at hstep
      obtain ⟨h1i, h1l⟩ := hstep
      cases hrec2 : batchParallelAux env tl (i + 1) st1 with
      | mk st2 rs =>
        have h2 := ih (i + 1) st1 h1i
        rw [hrec2] at h2
        exact ⟨h2.1, statsLE_trans h1l h2.2⟩

/-- The whole batch tool preserves the stat identities and never decreases
a counter. -/
theorem batchExecuteSql_statsStep (env : ExecEnv)
    (ocs : List (Except String DriverResult)) (items : List BatchItem)
    (so pm : Bool) (st : ServerState) (h : statsInvariant st.connectionStats) :
    statsInvariant (batchExecuteSql env ocs items so pm st).1.connectionStats ∧
    statsLE st.connectionStats (batchExecuteSql env ocs items so pm st).1.connectionStats := by
  unfold batchExecuteSql
  dsimp only
  cases hrec : reconnectIfNeeded env.closeOk env.connectOk env.newPoolId env.connectNow st with
  | mk st1 b =>
    have h1 := reconnectIfNeeded_statsStep env.closeOk env.connectOk env.newPoolId
      env.connectNow st h
    rw [hrec] at h1
    obtain ⟨h1i, h1l⟩ := h1
    cases b with
    | false => exact ⟨h1i, h1l⟩
    | true =>
      cases pm with
      | true =>
        dsimp only
        cases hpar : batchParallelAux env (items.zip ocs) 0 st1 with
        | mk st2 rs =>
          have h2 := batchParallelAux_statsStep env (items.zip ocs) 0 st1 h1i
          rw [hpar] at h2
          exact ⟨h2.1, statsLE_trans h1l h2.2⟩
      | false =>
        have h2 := batchSerialAux_statsStep env so (items.zip ocs) 0 st1 h1i
        exact ⟨h2.1, statsLE_trans h1l h2.2⟩

/-!
## Claims
-/

/-- C1.  The claim says an idle-watchdog disconnect must NOT clear the
retained configuration, so the next query transparently reconnects.  The
code contradicts this (and its own user-facing promise of auto-reconnect
after the 5-minute auto-disconnect, src/index.js line 300 and the README):
`startAutoDisconnectTimer` (lines 102-115) calls the one shared
`disconnectDatabase` (lines 178-201), which nulls `connectionConfig`
unconditionally.  Evaluation at the failing input: connect successfully at
time 0, fire the watchdog at 300000 ms — the config (retained just before)
and pool are cleared — and the next query throws the not-connected error
instead of reconnecting, the connection counter staying at 1. -/
theorem claim_C1_idle_disconnect_clears_config :
    stConnectedEx.connectionConfig = some cfgEx ∧
    (autoDisconnectTimerFire true 300000 stConnectedEx).connectionConfig = none ∧
    (autoDisconnectTimerFire true 300000 stConnectedEx).connectionPool = none ∧
    (executeQuery envEx (Except.ok drEx) "SELECT 1" []
        (autoDisconnectTimerFire true 300000 stConnectedEx)).2
      = Except.error JsError.notConnected ∧
    (executeQuery envEx (Except.ok drEx) "SELECT 1" []
        (autoDisconnectTimerFire true 300000 stConnectedEx)).1.connectionStats.totalConnections
      = stConnectedEx.connectionStats.totalConnections := by
  exact ⟨rfl, rfl, rfl, rfl, rfl⟩

/-- C2 counterexample.  The claim states the pool handle is non-null only
while connected, and that a failed pool open leaves no pool handle.  At the
concrete input (first connect from the initial state, pool open fails) the
session is not connected yet the pool handle still holds the failed pool
object: `connectDatabase` assigns `connectionPool` before awaiting
`connect()` (src/index.js lines 156-157) and its catch block (lines 169-174)
never nulls it. -/
theorem claim_C2_counterexample :
    isConnectionActive (connectDatabase true false 1 0 cfgEx initialServerState).1 = false ∧
    (connectDatabase true false 1 0 cfgEx initialServerState).1.connectionPool ≠ none := by
  exact ⟨rfl, by decide⟩

/-- C2 amended.  For every configuration whose pool open fails (the open is
reached, i.e. any prior close succeeded), `connectDatabase` increments the
total and failed connection counters, re-raises the error, and leaves the
session inactive — but the failed, unconnected pool object remains as the
pool handle; the handle is not nulled on a failed open. -/
theorem claim_C2_failed_open_state (cfg : Config) (st : ServerState) (pid now : Nat) :
    (connectDatabase true false pid now cfg st).2
      = Except.error (JsError.connectFailed "pool connect failed") ∧
    (connectDatabase true false pid now cfg st).1.connectionPool
      = some { id := pid, connected := false, connecting := false } ∧
    isConnectionActive (connectDatabase true false pid now cfg st).1 = false ∧
    (connectDatabase true false pid now cfg st).1.connectionStats.totalConnections
      = st.connectionStats.totalConnections + 1 ∧
    (connectDatabase true false pid now cfg st).1.connectionStats.failedConnections
      = st.connectionStats.failedConnections + 1 ∧
    (connectDatabase true false pid now cfg st).1.connectionStats.successfulConnections
      = st.connectionStats.successfulConnections := by
  obtain ⟨pool, la, cc, adt, hbt, stats⟩ := st
  cases pool <;>
    simp [connectDatabase, disconnectDatabase, connectDatabaseOpen, isConnectionActive]

/-- C3.  The claim says items without a caller-supplied id get the
positional label `SQL_` + (1-based position) in BOTH serial and parallel
modes, with the batch completing normally.  The parallel branch does
exactly that (src/index.js lines 458/467, `index` is the `map` callback
parameter), but the serial branch (lines 487/496) references `index` where
the loop variable is `i`: no `index` is in scope, so a serial item without
an id raises `ReferenceError: index is not defined` — in both the `try`
push and the `catch` push — and the whole batch returns the outer-catch
hard failure with no per-item results.  The schema documents `id` as
optional (line 429) and the parallel branch shows the intent, so this is a
code bug.  Evaluation at the failing input (serial, one id-less item, live
connection, successful driver outcome) versus the same input in parallel
mode. -/
theorem claim_C3_serial_default_label_reference_error :
    (batchExecuteSql envEx [Except.ok drEx]
        [{ id := none, sql := "SELECT 1", params := [] }] false false stConnectedEx).2
      = Except.error (JsError.referenceError "index") ∧
    batchResultIds (batchExecuteSql envEx [Except.ok drEx]
        [{ id := none, sql := "SELECT 1", params := [] }] false true stConnectedEx).2
      = Except.ok ["SQL_1"] ∧
    batchResultSuccesses (batchExecuteSql envEx [Except.ok drEx]
        [{ id := none, sql := "SELECT 1", params := [] }] false true stConnectedEx).2
      = Except.ok [true] := by
  exact ⟨rfl, rfl, rfl⟩

/-- C4 counterexample.  The claim asserts that N concurrent queries on a
disconnected session with retained configuration open exactly one pool and
bump the connection-attempt counter by exactly 1 under every interleaving.
The schedule `raceDoubleOpenSched` of two callers refutes it: both complete,
but two pools are opened and `totalConnections` rises by 2 —
`reconnectIfNeeded` (src/index.js lines 209-221) takes no lock, so both
callers pass the `!isConnectionActive() && connectionConfig` check before
either finishes connecting. -/
theorem claim_C4_counterexample :
    ¬ (∀ sched : List Bool, raceBothDone (raceRun sched raceInit) = true →
        (raceRun sched raceInit).shared.poolsOpened = 1 ∧
        (raceRun sched raceInit).shared.totalConnections = 1) := by
  intro hall
  have h2 := hall raceDoubleOpenSched (by decide)
  exact absurd h2.1 (by decide)

/-- C4 amended.  The reconnect path has no serialization: racing callers do
not reuse a single outcome.  With 2 concurrent queries on a disconnected
session with retained configuration there is an event-loop interleaving in
which both callers complete, two pools are opened, and the
connection-attempt counter increases by 2 (and correspondingly up to N for
N callers), not 1. -/
theorem claim_C4_double_open :
    raceBothDone (raceRun raceDoubleOpenSched raceInit) = true ∧
    (raceRun raceDoubleOpenSched raceInit).shared.poolsOpened = 2 ∧
    (raceRun raceDoubleOpenSched raceInit).shared.totalConnections = 2 := by
  exact ⟨rfl, rfl, rfl⟩

/-- C5 counterexample.  The claim, stated for an arbitrary 3-item serial
batch with `stopOnError = true` whose second item fails, promises exactly 2
result entries in a normal (partial) result.  For items carrying no
caller-supplied ids it is false: the serial branch's `index` ReferenceError
(src/index.js line 487) aborts the batch at item 1 and the tool returns the
outer-catch hard failure with no result entries at all. -/
theorem claim_C5_counterexample :
    ¬ ∃ rs, (batchExecuteSql envEx [Except.ok drEx, Except.error "boom", Except.ok drEx]
        items3noid true false stConnectedEx).2 = Except.ok rs ∧ rs.length = 2 := by
  rintro ⟨rs, hok, -⟩
  have he : (batchExecuteSql envEx [Except.ok drEx, Except.error "boom", Except.ok drEx]
      items3noid true false stConnectedEx).2
    = Except.error (JsError.referenceError "index") := rfl
  rw [he] at hok
  exact Except.noConfusion hok

/-- C5 amended.  Provided the items carry caller-supplied (truthy) ids, the
serial branch with `stopOnError = true` executes the items in input order
and stops immediately after the first failure: for any live connection and
any 3-item batch whose second item fails, exactly 2 result entries are
produced (item 1 successful, item 2 failed), item 3 is never attempted
(exactly 2 queries are executed), and the batch returns a normal partial
result, not a hard failure. -/
theorem claim_C5_stop_on_error (st : ServerState) (r1 r3 : DriverResult) (m : String)
    (h : isConnectionActive st = true) :
    batchResultIds (batchExecuteSql envEx [Except.ok r1, Except.error m, Except.ok r3]
        items3id true false st).2 = Except.ok ["A", "B"] ∧
    batchResultSuccesses (batchExecuteSql envEx [Except.ok r1, Except.error m, Except.ok r3]
        items3id true false st).2 = Except.ok [true, false] ∧
    (batchExecuteSql envEx [Except.ok r1, Except.error m, Except.ok r3]
        items3id true false st).1.connectionStats.totalQueries
      = st.connectionStats.totalQueries + 2 ∧
    (batchExecuteSql envEx [Except.ok r1, Except.error m, Except.ok r3]
        items3id true false st).1.connectionStats.successfulQueries
      = st.connectionStats.successfulQueries + 1 ∧
    (batchExecuteSql envEx [Except.ok r1, Except.error m, Except.ok r3]
        items3id true false st).1.connectionStats.failedQueries
      = st.connectionStats.failedQueries + 1 := by
  obtain ⟨pool, la, cc, adt, hbt, stats⟩ := st
  rcases pool with _ | ⟨pid, pc, pg⟩
  · simp [isConnectionActive] at h
  · cases pc with
    | false => simp [isConnectionActive] at h
    | true =>
      cases pg with
      | true => simp [isConnectionActive] at h
      | false =>
        rcases cc with _ | cfg <;>
          simp [batchExecuteSql, reconnectIfNeeded, isConnectionActive, batchSerialAux,
            executeQuery, serialItemId, updateActivityTime, batchResultIds,
            batchResultSuccesses, items3id, Except.map]

/-- C5 witness: the amended stop-on-error behaviour at the freshly
connected example state with concrete outcomes. -/
theorem claim_C5_stop_on_error_witness :
    batchResultIds (batchExecuteSql envEx [Except.ok drEx, Except.error "boom", Except.ok drEx]
        items3id true false stConnectedEx).2 = Except.ok ["A", "B"] ∧
    batchResultSuccesses (batchExecuteSql envEx [Except.ok drEx, Except.error "boom", Except.ok drEx]
        items3id true false stConnectedEx).2 = Except.ok [true, false] :=
  ⟨(claim_C5_stop_on_error stConnectedEx drEx drEx "boom" rfl).1,
   (claim_C5_stop_on_error stConnectedEx drEx drEx "boom" rfl).2.1⟩

/-- C6.  A query attempted while the session is disconnected and no
retained configuration exists fails with the not-connected error without
attempting any connection: `reconnectIfNeeded` (src/index.js lines 209-221)
skips the reconnect when `connectionConfig` is null and returns the
(false) active check, and `executeQuery` (lines 226-228) then throws before
touching anything — the state, in particular every counter and the pool
handle, is returned unchanged. -/
theorem claim_C6_no_config_no_attempt (env : ExecEnv)
    (oc : Except String DriverResult) (sql : String) (ps : List SqlParam)
    (st : ServerState) (hcfg : st.connectionConfig = none)
    (hact : isConnectionActive st = false) :
    executeQuery env oc sql ps st = (st, Except.error JsError.notConnected) := by
  unfold executeQuery reconnectIfNeeded
  rw [hcfg, hact]

/-- C6 witness: the initial state (never connected) at a concrete query. -/
theorem claim_C6_no_config_no_attempt_witness :
    executeQuery envEx (Except.ok drEx) "SELECT 1" [] initialServerState
      = (initialServerState, Except.error JsError.notConnected) :=
  claim_C6_no_config_no_attempt envEx (Except.ok drEx) "SELECT 1" []
    initialServerState rfl rfl

/-- C7.  Disconnect is idempotent (src/index.js lines 178-201): on any
state holding a pool handle the first call (whose `close()` succeeds)
returns `true` and nulls the handle, and a second call — whatever its
`close` oracle, since `close` is never reached — returns `false` with the
state unchanged and never throws. -/
theorem claim_C7_disconnect_idempotent (st : ServerState) (c2 : Bool)
    (h : st.connectionPool.isSome = true) :
    (disconnectDatabase true st).2 = Except.ok true ∧
    disconnectDatabase c2 (disconnectDatabase true st).1
      = ((disconnectDatabase true st).1, Except.ok false) := by
  obtain ⟨pool, la, cc, adt, hbt, stats⟩ := st
  cases pool with
  | none => simp at h
  | some p => exact ⟨rfl, rfl⟩

/-- C7 witness: double disconnect starting from a connected session. -/
theorem claim_C7_disconnect_idempotent_witness :
    (disconnectDatabase true stConnectedEx).2 = Except.ok true ∧
    disconnectDatabase true (disconnectDatabase true stConnectedEx).1
      = ((disconnectDatabase true stConnectedEx).1, Except.ok false) :=
  claim_C7_disconnect_idempotent stConnectedEx true rfl

/-- C8.  On a live connection a failing query increments exactly the total
and failed query counters and propagates the wrapped driver error, leaving
`lastActivityTime` (and the armed watchdog, the success counters, the
accumulated/average timing, the pool handle and the retained config)
exactly as they were (src/index.js lines 264-271: the catch block never
calls `updateActivityTime`). -/
theorem claim_C8_failed_query_keeps_activity (env : ExecEnv) (m : String)
    (sql : String) (ps : List SqlParam) (st : ServerState)
    (h : isConnectionActive st = true) :
    (executeQuery env (Except.error m) sql ps st).2
      = Except.error (JsError.queryFailed m) ∧
    (executeQuery env (Except.error m) sql ps st).1.lastActivityTime
      = st.lastActivityTime ∧
    (executeQuery env (Except.error m) sql ps st).1.autoDisconnectTimer
      = st.autoDisconnectTimer ∧
    (executeQuery env (Except.error m) sql ps st).1.connectionStats.failedQueries
      = st.connectionStats.failedQueries + 1 ∧
    (executeQuery env (Except.error m) sql ps st).1.connectionStats.totalQueries
      = st.connectionStats.totalQueries + 1 ∧
    (executeQuery env (Except.error m) sql ps st).1.connectionStats.successfulQueries
      = st.connectionStats.successfulQueries ∧
    (executeQuery env (Except.error m) sql ps st).1.connectionStats.totalQueryTime
      = st.connectionStats.totalQueryTime ∧
    (executeQuery env (Except.error m) sql ps st).1.connectionStats.averageQueryTime
      = st.connectionStats.averageQueryTime ∧
    (executeQuery env (Except.error m) sql ps st).1.connectionPool
      = st.connectionPool ∧
    (executeQuery env (Except.error m) sql ps st).1.connectionConfig
      = st.connectionConfig := by
  rw [executeQuery_active_err env m sql ps st h]
  exact ⟨rfl, rfl, rfl, rfl, rfl, rfl, rfl, rfl, rfl, rfl⟩

/-- C8 witness: a failing query on the freshly connected example state. -/
theorem claim_C8_failed_query_keeps_activity_witness :
    (executeQuery envEx (Except.error "syntax error") "SELEC 1" [] stConnectedEx).2
      = Except.error (JsError.queryFailed "syntax error") ∧
    (executeQuery envEx (Except.error "syntax error") "SELEC 1" [] stConnectedEx).1.lastActivityTime
      = stConnectedEx.lastActivityTime :=
  ⟨(claim_C8_failed_query_keeps_activity envEx "syntax error" "SELEC 1" [] stConnectedEx rfl).1,
   (claim_C8_failed_query_keeps_activity envEx "syntax error" "SELEC 1" [] stConnectedEx rfl).2.1⟩

/-- C9.  The stat identities `successfulQueries + failedQueries =
totalQueries` and `totalConnections = successfulConnections +
failedConnections` hold initially and are preserved by every operation —
connect, disconnect, single query, batch (serial or parallel), the
auto-disconnect watchdog and the heartbeat — and no operation ever
decreases a counter (`statsLE`); the status tool is a pure read whose
snapshot is the state's stats.  (Counters are module-level and reset only
by process restart.) -/
theorem claim_C9_stats_invariant :
    statsInvariant initialServerState.connectionStats ∧
    (∀ (c k : Bool) (pid now : Nat) (cfg : Config) (st : ServerState),
      statsInvariant st.connectionStats →
        statsInvariant (connectDatabase c k pid now cfg st).1.connectionStats ∧
        statsLE st.connectionStats (connectDatabase c k pid now cfg st).1.connectionStats) ∧
    (∀ (c : Bool) (st : ServerState),
      statsInvariant st.connectionStats →
        statsInvariant (disconnectDatabase c st).1.connectionStats ∧
        statsLE st.connectionStats (disconnectDatabase c st).1.connectionStats) ∧
    (∀ (env : ExecEnv) (oc : Except String DriverResult) (sql : String)
        (ps : List SqlParam) (st : ServerState),
      statsInvariant st.connectionStats →
        statsInvariant (executeQuery env oc sql ps st).1.connectionStats ∧
        statsLE st.connectionStats (executeQuery env oc sql ps st).1.connectionStats) ∧
    (∀ (env : ExecEnv) (ocs : List (Except String DriverResult))
        (items : List BatchItem) (so pm : Bool) (st : ServerState),
      statsInvariant st.connectionStats →
        statsInvariant (batchExecuteSql env ocs items so pm st).1.connectionStats ∧
        statsLE st.connectionStats (batchExecuteSql env ocs items so pm st).1.connectionStats) ∧
    (∀ (c : Bool) (now : Nat) (st : ServerState),
      statsInvariant st.connectionStats →
        statsInvariant (autoDisconnectTimerFire c now st).connectionStats ∧
        statsLE st.connectionStats (autoDisconnectTimerFire c now st).connectionStats) ∧
    (∀ (oc : Except String Unit) (now : Nat) (st : ServerState),
      statsInvariant st.connectionStats →
        statsInvariant (heartbeatTimerFire oc now st).connectionStats ∧
        statsLE st.connectionStats (heartbeatTimerFire oc now st).connectionStats) ∧
    (∀ (now : Nat) (st : ServerState),
      (getConnectionStatus now st).stats = st.connectionStats) := by
  refine ⟨by decide, connectDatabase_statsStep, ?_, executeQuery_statsStep,
    batchExecuteSql_statsStep, ?_, ?_, fun now st => rfl⟩
  · intro c st h
    rw [disconnectDatabase_stats]
    exact ⟨h, statsLE_refl _⟩
  · intro c now st h
    rw [autoDisconnectTimerFire_stats]
    exact ⟨h, statsLE_refl _⟩
  · intro oc now st h
    rw [heartbeatTimerFire_stats]
    exact ⟨h, statsLE_refl _⟩

/-- C9 witness: the identities hold at the initial stats and after a
concrete connect on the initial state. -/
theorem claim_C9_stats_invariant_witness :
    statsInvariant initialServerState.connectionStats ∧
    statsInvariant (connectDatabase true true 1 0 cfgEx initialServerState).1.connectionStats :=
  ⟨claim_C9_stats_invariant.1,
   (claim_C9_stats_invariant.2.1 true true 1 0 cfgEx initialServerState (by decide)).1⟩

/-- C10.  The `connect_database` schema's own declared default for
`minPoolSize` is `0` (src/index.js line 289), yet `connectDatabase` builds
the pool options with `min: config.minPoolSize || 1` (line 148): the falsy
`0` is silently coerced, so every configuration with `minPoolSize = 0`
opens its pool with an effective minimum of `1`, not `0`. -/
theorem claim_C10_min_pool_size_coerced :
    connectSchemaDefaults.minPoolSize = 0 ∧
    ∀ cfg : Config, cfg.minPoolSize = some connectSchemaDefaults.minPoolSize →
      (buildSqlConfig cfg).pool.min = 1 := by
  refine ⟨rfl, ?_⟩
  intro cfg hmin
  simp [buildSqlConfig, jsOrNat, hmin, connectSchemaDefaults]

/-- C10 witness: the concrete schema-default configuration. -/
theorem claim_C10_min_pool_size_coerced_witness :
    cfgExMinZero.minPoolSize = some connectSchemaDefaults.minPoolSize ∧
    (buildSqlConfig cfgExMinZero).pool.min = 1 :=
  ⟨rfl, claim_C10_min_pool_size_coerced.2 cfgExMinZero rfl⟩

end McpMssql
